import Mathlib

/-!
Shallow embedding of `src/main.py` of the Line_Connect repository: a relay
middleware that receives LINE webhook events, forwards user text/media as
queries to the Dify conversational AI backend, and relays the answer back.

The outbound HTTP world (LINE SDK download/reply primitives, the Dify
`/files/upload` and `/chat-messages` endpoints) is modelled by explicit
outcome parameters (`DownloadOutcome`, `UploadOutcome`, `ChatOutcome`): each
possible observable result of an outbound call is a constructor, and the
handlers are total functions of the inbound event together with those
outcomes.  Outbound calls and their arguments are recorded in a trace of
`Action`s so that ordering and absence of calls can be stated.  Python
exceptions are modelled with `Option` results; the process-wide mutable dict
`user_sessions` is modelled as an association list threaded through the
handlers.
-/

namespace LineConnect

/-- Fixed apology reply used in `process_and_reply` when the Dify call fails
(src/main.py line 132); the same string is the default answer used by
`call_dify_api` when the response JSON has no `answer` field (line 201). -/
def genericApology : String := "ขออภัย ระบบขัดข้องชั่วคราว"

/-- File-specific apology sent by `handle_file_message` when the upload to
Dify did not yield a file id (src/main.py line 115). -/
def uploadApology : String := "ขออภัย ไม่สามารถอัปโหลดไฟล์ไปยัง AI ได้"

/-- Apology sent by the outer exception handler of `handle_file_message`
(src/main.py line 119), e.g. when downloading the media content fails. -/
def fileProcessingApology : String := "ขออภัย เกิดข้อผิดพลาดในการประมวลผลไฟล์"

/-- The process-wide dict `user_sessions` (src/main.py line 53), mapping a
LINE user id to the Dify conversation id, modelled as an association list
(first match wins, like a dict). -/
abbrev Sessions := List (String × String)

/-- `user_sessions.get(user_id, "")` (src/main.py lines 80 and 93). -/
def sget : Sessions → String → String
  | [], _ => ""
  | (k, v) :: rest, key => if k == key then v else sget rest key

/-- `user_sessions[user_id] = value` (src/main.py line 126): update in place
if the key exists, otherwise append a new entry. -/
def sset : Sessions → String → String → Sessions
  | [], key, value => [(key, value)]
  | (k, v) :: rest, key, value =>
    if k == key then (key, value) :: rest else (k, v) :: sset rest key value

/-- Every conversation id stored in the session map is a non-empty string. -/
def valuesNonempty (s : Sessions) : Bool := s.all (fun p => p.2 != "")

/-- The characters of the opening delimiter `<think>` of the regex
`r'<think>.*?</think>'` (src/main.py line 205). -/
def thinkOpen : List Char := ['<', 't', 'h', 'i', 'n', 'k', '>']

/-- The characters of the closing delimiter `</think>`. -/
def thinkClose : List Char := ['<', '/', 't', 'h', 'i', 'n', 'k', '>']

/-- One left-to-right scan implementing
`re.sub(r'<think>.*?</think>', '', answer, flags=re.DOTALL)`
(src/main.py line 205).  In copying mode (`buf = none`) characters are kept
until an occurrence of `<think>` starts, which switches to buffering mode.
In buffering mode (`buf = some b`, `b` holds the consumed characters of the
candidate match in reverse) characters are consumed until the first
occurrence of `</think>`; the whole match is then discarded and the scan
resumes in copying mode after it (regex matches do not overlap and the
DOTALL flag lets `.` consume newlines).  If the input ends while buffering,
no closing delimiter follows the candidate `<think>`, so the regex has no
match there and the buffered text is emitted unchanged.  The `fuel`
argument makes the recursion structural; at least one character is consumed
per step, so `fuel = l.length` always suffices and the fuel-exhaustion
cases are unreachable from `stripThinkList`. -/
def stripThinkGo : Nat → Option (List Char) → List Char → List Char
  | _, none, [] => []
  | _, some buf, [] => buf.reverse
  | 0, none, c :: rest => c :: rest
  | 0, some buf, c :: rest => buf.reverse ++ (c :: rest)
  | fuel+1, none, c :: rest =>
    if thinkOpen.isPrefixOf (c :: rest) then stripThinkGo fuel (some [c]) rest
    else c :: stripThinkGo fuel none rest
  | fuel+1, some buf, c :: rest =>
    if thinkClose.isPrefixOf (c :: rest) then
      stripThinkGo fuel none ((c :: rest).drop thinkClose.length)
    else stripThinkGo fuel (some (c :: buf)) rest

/-- `re.sub(r'<think>.*?</think>', '', ·, flags=re.DOTALL)` on a character
list. -/
def stripThinkList (l : List Char) : List Char := stripThinkGo l.length none l

/-- `re.sub(r'<think>.*?</think>', '', answer, flags=re.DOTALL)` on a
string (src/main.py line 205). -/
def stripThink (s : String) : String := ⟨stripThinkList s.data⟩

/-- Whether the regex `<think>.*?` can start anywhere in `l`, i.e. whether
`l` contains the substring `<think>`. -/
def containsTag : List Char → Bool
  | [] => false
  | c :: rest => thinkOpen.isPrefixOf (c :: rest) || containsTag rest

/-- The whitespace characters removed by Python's `str.strip()` (ASCII
fragment; the answers manipulated here are ASCII/Thai text without the
exotic Unicode space code points, for which Python would also strip). -/
def pyWhitespace (c : Char) : Bool :=
  c == ' ' || c == '\t' || c == '\n' || c == '\r' || c == '\x0b' || c == '\x0c'

/-- Python's `str.strip()` (src/main.py line 205): drop leading and trailing
whitespace. -/
def pyStrip (s : String) : String :=
  ⟨((s.data.dropWhile pyWhitespace).reverse.dropWhile pyWhitespace).reverse⟩

/-- One element of the `files` list of the chat-messages payload
(src/main.py lines 186-192). -/
structure FileAttachment where
  type : String
  transfer_method : String
  upload_file_id : String
deriving DecidableEq

/-- The JSON body built by `call_dify_api` for `POST {base}/chat-messages`
(src/main.py lines 173-192).  `conversation_id = none` means the key is not
present in the dict; `inputs` is the (always empty) `inputs` object. -/
structure ChatPayload where
  inputs : List (String × String)
  query : String
  response_mode : String
  user : String
  files : List FileAttachment
  conversation_id : Option String
deriving DecidableEq

/-- The `conversation_id` key of the payload: added only when the
`conversation_id` argument is truthy (src/main.py lines 181-182). -/
def optConversationId (conversation_id : String) : Option String :=
  if conversation_id != "" then some conversation_id else none

/-- Builds the chat-messages JSON body exactly as src/main.py lines 173-192:
the base dict, then the conditional `conversation_id` key, then the
conditional overwrite of `files`.  A `file_id` of `none` is Python's `None`
(the default argument); `some ""` is a present-but-falsy id, which the
`if file_id:` test also rejects. -/
def buildDifyPayload (query user_id conversation_id : String)
    (file_id : Option String) : ChatPayload :=
  let base : ChatPayload :=
    { inputs := [], query := query, response_mode := "blocking",
      user := user_id, files := [], conversation_id := none }
  let withConv :=
    if conversation_id != "" then { base with conversation_id := some conversation_id }
    else base
  match file_id with
  | some fid =>
    if fid != "" then
      { withConv with
        files := [{ type := "image", transfer_method := "local_file",
                    upload_file_id := fid }] }
    else withConv
  | none => withConv

/-- The JSON object of a 2xx response of `POST {base}/chat-messages`, as far
as `call_dify_api` reads it (src/main.py lines 199-202): the `answer` and
`conversation_id` fields, `none` when the field is absent (or null, which
`dict.get` also passes through and which is falsy like an absent field). -/
structure DifyChatBody where
  answer : Option String
  conversation_id : Option String
deriving DecidableEq

/-- Observable outcome of the outbound `requests.post` to `/chat-messages`:
either an exception (network error, or `raise_for_status` on a non-2xx
response) or a 2xx response with a JSON body. -/
inductive ChatOutcome where
  | httpFailure
  | ok (body : DifyChatBody)
deriving DecidableEq

/-- The conversation id `call_dify_api` extracts from an outcome:
`result.get("conversation_id", "")`, and `""` when the call raised. -/
def newConvOf : ChatOutcome → String
  | .httpFailure => ""
  | .ok body => body.conversation_id.getD ""

/-- Observable outcome of downloading media content from LINE
(src/main.py lines 98-100): the content bytes, or an exception. -/
inductive DownloadOutcome where
  | ok (content : List Nat)
  | failure
deriving DecidableEq

/-- Observable outcome of the outbound `requests.post` to `/files/upload`
(src/main.py lines 157-162): an exception (network error or non-2xx via
`raise_for_status`), or a 2xx response whose JSON `id` field is `id`
(`none` when the field is absent or null). -/
inductive UploadOutcome where
  | httpFailure
  | ok (id : Option String)
deriving DecidableEq

/-- An outbound call made while handling an event; the traces built from
these record which calls happen, with which arguments, in which order. -/
inductive Action where
  | downloadContent (message_id : String)
  | uploadFile (filename : String) (content : List Nat) (user : String)
  | forward (payload : ChatPayload)
  | storeUpdate (user token : String)
  | emitReply (reply_token text : String)
deriving DecidableEq

/-- Result of handling one event: the session map afterwards and the trace
of outbound calls, in order. -/
structure HandlerResult where
  sessions : Sessions
  trace : List Action
deriving DecidableEq

/-- `upload_file_to_dify` (src/main.py lines 144-165): on any exception it
logs and returns `None`; on a 2xx response it returns
`response.json().get('id')`. -/
def upload_file_to_dify : UploadOutcome → Option String
  | .httpFailure => none
  | .ok id => id

/-- `call_dify_api` (src/main.py lines 167-213) without the payload (which
`buildDifyPayload` builds and the caller's trace records): on an exception
the function re-raises (`none` here); on a 2xx response it takes `answer`
(default `genericApology`) and `conversation_id` (default `""`), strips
`<think>`-delimited text from the answer, trims it, and returns the pair. -/
def call_dify_api (query user_id conversation_id : String)
    (file_id : Option String) (outcome : ChatOutcome) :
    Option (String × String) :=
  match outcome with
  | .httpFailure => none
  | .ok body =>
    let answer := body.answer.getD genericApology
    let new_conversation_id := body.conversation_id.getD ""
    some (pyStrip (stripThink answer), new_conversation_id)

/-- `process_and_reply` (src/main.py lines 121-132): call Dify; on success
store the new conversation id when truthy and reply with the answer; on any
exception reply with the fixed apology.  The `forward` action records the
payload of the attempted chat call. -/
def process_and_reply (user_sessions : Sessions)
    (reply_token query user_id conversation_id : String)
    (file_id : Option String) (outcome : ChatOutcome) : HandlerResult :=
  let payload := buildDifyPayload query user_id conversation_id file_id
  match call_dify_api query user_id conversation_id file_id outcome with
  | none =>
    ⟨user_sessions, [.forward payload, .emitReply reply_token genericApology]⟩
  | some (dify_response, new_conversation_id) =>
    if new_conversation_id != "" then
      ⟨sset user_sessions user_id new_conversation_id,
       [.forward payload, .storeUpdate user_id new_conversation_id,
        .emitReply reply_token dify_response]⟩
    else
      ⟨user_sessions, [.forward payload, .emitReply reply_token dify_response]⟩

/-- `handle_text_message` (src/main.py lines 74-83): look up the stored
conversation id and forward the literal message text. -/
def handle_text_message (user_sessions : Sessions)
    (user_id user_message reply_token : String) (chat : ChatOutcome) :
    HandlerResult :=
  process_and_reply user_sessions reply_token user_message user_id
    (sget user_sessions user_id) none chat

/-- The dict `extension_map` (src/main.py line 104). -/
def extension_map : List (String × String) :=
  [("image", "jpg"), ("video", "mp4"), ("audio", "m4a")]

/-- Python's `dict.get(key, default)` on a small literal dict. -/
def dictGetD : List (String × String) → String → String → String
  | [], _, dflt => dflt
  | (k, v) :: rest, key, dflt => if k == key then v else dictGetD rest key dflt

/-- `extension_map.get(message_type, "bin")` (src/main.py line 105). -/
def extensionFor (message_type : String) : String :=
  dictGetD extension_map message_type "bin"

/-- `handle_file_message` (src/main.py lines 86-119): download the content
from LINE (failure is caught by the outer handler, which apologises);
upload it to Dify under the filename `<messageId>.<ext>`; if a truthy file
id comes back, forward the synthetic query `"[<type> uploaded]"` with the
file attached, otherwise send the upload apology. -/
def handle_file_message (user_sessions : Sessions)
    (user_id reply_token message_id message_type : String)
    (download : DownloadOutcome) (upload : UploadOutcome)
    (chat : ChatOutcome) : HandlerResult :=
  let conversation_id := sget user_sessions user_id
  match download with
  | .failure =>
    ⟨user_sessions,
     [.downloadContent message_id, .emitReply reply_token fileProcessingApology]⟩
  | .ok file_content =>
    let extension := extensionFor message_type
    let filename := message_id ++ "." ++ extension
    match upload_file_to_dify upload with
    | some fid =>
      if fid != "" then
        let inner := process_and_reply user_sessions reply_token
          ("[" ++ message_type ++ " uploaded]") user_id conversation_id
          (some fid) chat
        ⟨inner.sessions,
         .downloadContent message_id ::
           .uploadFile filename file_content user_id :: inner.trace⟩
      else
        ⟨user_sessions,
         [.downloadContent message_id,
          .uploadFile filename file_content user_id,
          .emitReply reply_token uploadApology]⟩
    | none =>
      ⟨user_sessions,
       [.downloadContent message_id,
        .uploadFile filename file_content user_id,
        .emitReply reply_token uploadApology]⟩

/-- A text message event together with the backend outcome its processing
will observe. -/
structure TextEventData where
  user_id : String
  text : String
  reply_token : String
  chat : ChatOutcome
deriving DecidableEq

/-- A media (image/video/audio) message event together with the outcomes of
the three outbound calls its processing may make. -/
structure MediaEventData where
  user_id : String
  reply_token : String
  message_id : String
  message_type : String
  download : DownloadOutcome
  upload : UploadOutcome
  chat : ChatOutcome
deriving DecidableEq

/-- A webhook event, discriminated the way the `@handler.add` registrations
dispatch it (src/main.py lines 74 and 86). -/
inductive Event where
  | text (e : TextEventData)
  | media (e : MediaEventData)
deriving DecidableEq

/-- The dispatch performed by the LINE `WebhookHandler` for one parsed
event. -/
def dispatchEvent (user_sessions : Sessions) : Event → HandlerResult
  | .text e => handle_text_message user_sessions e.user_id e.text e.reply_token e.chat
  | .media e =>
    handle_file_message user_sessions e.user_id e.reply_token e.message_id
      e.message_type e.download e.upload e.chat

/-- Process a list of parsed events in order, threading the session map and
concatenating the traces. -/
def runEvents (user_sessions : Sessions) : List Event → HandlerResult
  | [] => ⟨user_sessions, []⟩
  | e :: rest =>
    let r := dispatchEvent user_sessions e
    let r2 := runEvents r.sessions rest
    ⟨r2.sessions, r.trace ++ r2.trace⟩

/-- Result of one `POST /callback` request: HTTP status and body (for the
400 case, the `detail` string of the `HTTPException`), the session map
afterwards, and the trace of outbound calls. -/
structure CallbackResult where
  status : Nat
  body : String
  sessions : Sessions
  trace : List Action
deriving DecidableEq

/-- Outcome of `handler.handle(body_str, signature)` (src/main.py line 66):
either the signature does not verify against the channel secret
(`InvalidSignatureError`), or it does and the body parses into events. -/
inductive SignatureCheck where
  | invalid
  | valid (events : List Event)

/-- The `/callback` route (src/main.py lines 59-71): on an invalid
signature, raise `HTTPException(400, "Invalid signature")` without touching
any event; otherwise the handler dispatches every event and the route
returns `'OK'` (HTTP 200). -/
def callback (user_sessions : Sessions) (check : SignatureCheck) :
    CallbackResult :=
  match check with
  | .invalid => ⟨400, "Invalid signature", user_sessions, []⟩
  | .valid events =>
    let r := runEvents user_sessions events
    ⟨200, "OK", r.sessions, r.trace⟩

/-- The payloads of the chat-messages calls in a trace, in order. -/
def forwardedPayloads : List Action → List ChatPayload
  | [] => []
  | .downloadContent _ :: rest => forwardedPayloads rest
  | .uploadFile _ _ _ :: rest => forwardedPayloads rest
  | .forward p :: rest => p :: forwardedPayloads rest
  | .storeUpdate _ _ :: rest => forwardedPayloads rest
  | .emitReply _ _ :: rest => forwardedPayloads rest

/-- The filenames of the upload calls in a trace, in order. -/
def uploadedFilenames : List Action → List String
  | [] => []
  | .downloadContent _ :: rest => uploadedFilenames rest
  | .uploadFile filename _ _ :: rest => filename :: uploadedFilenames rest
  | .forward _ :: rest => uploadedFilenames rest
  | .storeUpdate _ _ :: rest => uploadedFilenames rest
  | .emitReply _ _ :: rest => uploadedFilenames rest

theorem sget_sset_self (s : Sessions) (k v : String) : sget (sset s k v) k = v := by
  induction s with
  | nil => simp [sset, sget]
  | cons p rest ih =>
    obtain ⟨k', v'⟩ := p
    by_cases h : (k' == k) = true
    · simp [sset, sget, h]
    · simp only [sset, h, if_neg, Bool.false_eq_true, not_false_eq_true, if_false]
      simp [sget, h, ih]

theorem valuesNonempty_sset (s : Sessions) (k v : String)
    (hs : valuesNonempty s = true) (hv : (v != "") = true) :
    valuesNonempty (sset s k v) = true := by
  induction s with
  | nil => simp [sset, valuesNonempty, hv]
  | cons p rest ih =>
    obtain ⟨k', v'⟩ := p
    simp only [valuesNonempty, List.all_cons, Bool.and_eq_true] at hs
    obtain ⟨h1, h2⟩ := hs
    by_cases h : (k' == k) = true
    · simp [sset, h, valuesNonempty, hv, h2]
    · simp only [sset, h, Bool.false_eq_true, not_false_eq_true, if_false]
      simp only [valuesNonempty, List.all_cons, Bool.and_eq_true]
      exact ⟨h1, ih h2⟩

theorem thinkOpen_cons : thinkOpen = '<' :: ['t', 'h', 'i', 'n', 'k', '>'] := rfl

theorem thinkClose_cons : thinkClose = '<' :: ['/', 't', 'h', 'i', 'n', 'k', '>'] := rfl

theorem thinkOpen_data : "<think>".data = thinkOpen := by decide

theorem thinkClose_data : "</think>".data = thinkClose := by decide

theorem open_isPrefixOf_eq_false (c : Char) (l : List Char) (h : c ≠ '<') :
    thinkOpen.isPrefixOf (c :: l) = false := by
  have hc : ('<' == c) = false := by
    rw [beq_eq_false_iff_ne]
    exact fun hh => h hh.symm
  simp [thinkOpen, List.isPrefixOf, hc]

theorem close_isPrefixOf_eq_false (c : Char) (l : List Char) (h : c ≠ '<') :
    thinkClose.isPrefixOf (c :: l) = false := by
  have hc : ('<' == c) = false := by
    rw [beq_eq_false_iff_ne]
    exact fun hh => h hh.symm
  simp [thinkClose, List.isPrefixOf, hc]

theorem open_isPrefixOf_append (l : List Char) :
    thinkOpen.isPrefixOf (thinkOpen ++ l) = true := by
  simp [thinkOpen, List.isPrefixOf]

theorem close_isPrefixOf_append (l : List Char) :
    thinkClose.isPrefixOf (thinkClose ++ l) = true := by
  simp [thinkClose, List.isPrefixOf]

theorem open_isPrefixOf_cons_append (l : List Char) :
    thinkOpen.isPrefixOf ('<' :: (['t', 'h', 'i', 'n', 'k', '>'] ++ l)) = true := by
  simp [thinkOpen, List.isPrefixOf]

theorem close_isPrefixOf_cons_append (l : List Char) :
    thinkClose.isPrefixOf ('<' :: (['/', 't', 'h', 'i', 'n', 'k', '>'] ++ l)) = true := by
  simp [thinkClose, List.isPrefixOf]

theorem stripThinkGo_fuel (f₁ : Nat) : ∀ (f₂ : Nat) (buf : Option (List Char))
    (l : List Char), l.length ≤ f₁ → l.length ≤ f₂ →
    stripThinkGo f₁ buf l = stripThinkGo f₂ buf l := by
  induction f₁ with
  | zero =>
    intro f₂ buf l h1 _
    have : l = [] := List.length_eq_zero.mp (Nat.le_zero.mp h1)
    subst this
    cases buf <;> cases f₂ <;> rfl
  | succ f ih =>
    intro f₂ buf l h1 h2
    cases l with
    | nil => cases buf <;> cases f₂ <;> rfl
    | cons c rest =>
      cases f₂ with
      | zero => simp at h2
      | succ f₂' =>
        simp only [List.length_cons, Nat.succ_le_succ_iff] at h1 h2
        cases buf with
        | none =>
          simp only [stripThinkGo]
          by_cases h : thinkOpen.isPrefixOf (c :: rest) = true
          · simp only [h, if_true]
            exact ih f₂' (some [c]) rest h1 h2
          · simp only [h, if_false, Bool.false_eq_true]
            rw [ih f₂' none rest h1 h2]
        | some buf =>
          simp only [stripThinkGo]
          by_cases h : thinkClose.isPrefixOf (c :: rest) = true
          · simp only [h, if_true]
            refine ih f₂' none ((c :: rest).drop thinkClose.length) ?_ ?_ <;>
              simp [List.length_drop, thinkClose] <;> omega
          · simp only [h, if_false, Bool.false_eq_true]
            exact ih f₂' (some (c :: buf)) rest h1 h2

theorem stripThinkGo_noTag : ∀ (l : List Char) (fuel : Nat), l.length ≤ fuel →
    containsTag l = false → stripThinkGo fuel none l = l := by
  intro l
  induction l with
  | nil => intro fuel _ _; cases fuel <;> rfl
  | cons c rest ih =>
    intro fuel h1 h2
    cases fuel with
    | zero => simp at h1
    | succ f =>
      simp only [containsTag, Bool.or_eq_false_iff] at h2
      obtain ⟨hopen, hrest⟩ := h2
      simp only [stripThinkGo, hopen, Bool.false_eq_true, if_false]
      simp only [List.length_cons, Nat.succ_le_succ_iff] at h1
      rw [ih f h1 hrest]

theorem stripThinkGo_copy : ∀ (a l : List Char) (fuel : Nat), '<' ∉ a →
    (a ++ l).length ≤ fuel →
    stripThinkGo fuel none (a ++ l) = a ++ stripThinkGo l.length none l := by
  intro a
  induction a with
  | nil =>
    intro l fuel _ h
    simp only [List.nil_append] at h ⊢
    exact stripThinkGo_fuel fuel l.length none l h le_rfl
  | cons x a' ih =>
    intro l fuel hmem h
    have hx : x ≠ '<' := by
      intro hh
      exact hmem (by simp [hh])
    have hmem' : '<' ∉ a' := fun hc => hmem (by simp [hc])
    cases fuel with
    | zero => simp at h
    | succ f =>
      simp only [List.cons_append, List.length_cons, Nat.succ_le_succ_iff] at h ⊢
      simp only [stripThinkGo, open_isPrefixOf_eq_false x _ hx,
        Bool.false_eq_true, if_false]
      rw [ih l f hmem' h]

theorem stripThinkGo_scan : ∀ (b buf l : List Char) (fuel : Nat), '<' ∉ b →
    (b ++ (thinkClose ++ l)).length ≤ fuel →
    stripThinkGo fuel (some buf) (b ++ (thinkClose ++ l)) =
      stripThinkGo l.length none l := by
  intro b
  induction b with
  | nil =>
    intro buf l fuel _ h
    simp only [List.nil_append, List.length_append, thinkClose,
      List.length_cons, List.length_nil] at h
    cases fuel with
    | zero => omega
    | succ f =>
      simp only [List.nil_append]
      rw [thinkClose_cons, List.cons_append]
      simp only [stripThinkGo, close_isPrefixOf_cons_append, if_true]
      have hback : ('<' :: (['/', 't', 'h', 'i', 'n', 'k', '>'] ++ l)) =
          thinkClose ++ l := by
        simp [thinkClose]
      rw [hback, List.drop_left]
      exact stripThinkGo_fuel f l.length none l (by omega) le_rfl
  | cons x b' ih =>
    intro buf l fuel hmem h
    have hx : x ≠ '<' := by
      intro hh
      exact hmem (by simp [hh])
    have hmem' : '<' ∉ b' := fun hc => hmem (by simp [hc])
    cases fuel with
    | zero => simp at h
    | succ f =>
      simp only [List.cons_append, List.length_cons, Nat.succ_le_succ_iff] at h ⊢
      simp only [stripThinkGo, close_isPrefixOf_eq_false x _ hx,
        Bool.false_eq_true, if_false]
      exact ih (x :: buf) l f hmem' h

theorem stripThinkGo_block (b c : List Char) (fuel : Nat) (hb : '<' ∉ b)
    (h : (thinkOpen ++ b ++ thinkClose ++ c).length ≤ fuel) :
    stripThinkGo fuel none (thinkOpen ++ b ++ thinkClose ++ c) =
      stripThinkGo c.length none c := by
  rw [List.append_assoc, List.append_assoc] at h ⊢
  cases fuel with
  | zero => simp [thinkOpen] at h
  | succ f =>
    rw [thinkOpen_cons, List.cons_append]
    simp only [stripThinkGo, open_isPrefixOf_cons_append, if_true]
    have hshape : ['t', 'h', 'i', 'n', 'k', '>'] ++ (b ++ (thinkClose ++ c)) =
        (['t', 'h', 'i', 'n', 'k', '>'] ++ b) ++ (thinkClose ++ c) :=
      (List.append_assoc _ _ _).symm
    rw [hshape]
    refine stripThinkGo_scan _ ['<'] c f ?_ ?_
    · simp only [List.mem_append]
      rintro (hc | hc)
      · simp at hc
      · exact hb hc
    · simp only [thinkOpen, thinkClose, List.length_cons, List.length_append,
        List.length_nil] at h ⊢
      omega

theorem data_append (a b : String) : (a ++ b).data = a.data ++ b.data :=
  String.data_append a b

theorem stripThinkList_noTag (l : List Char) (h : containsTag l = false) :
    stripThinkList l = l :=
  stripThinkGo_noTag l l.length le_rfl h

theorem stripThink_noTag (s : String) (h : containsTag s.data = false) :
    stripThink s = s := by
  show (⟨stripThinkList s.data⟩ : String) = s
  rw [stripThinkList_noTag s.data h]

theorem stripThink_block (A B C : String) (hA : '<' ∉ A.data)
    (hB : '<' ∉ B.data) :
    stripThink (A ++ "<think>" ++ B ++ "</think>" ++ C) = A ++ stripThink C := by
  show (⟨stripThinkList (A ++ "<think>" ++ B ++ "</think>" ++ C).data⟩ : String) =
    A ++ stripThink C
  have hdata : (A ++ "<think>" ++ B ++ "</think>" ++ C).data =
      A.data ++ (thinkOpen ++ B.data ++ thinkClose ++ C.data) := by
    simp [data_append, thinkOpen, thinkClose, List.append_assoc]
  rw [hdata]
  show (⟨stripThinkGo (A.data ++ (thinkOpen ++ B.data ++ thinkClose ++ C.data)).length
    none (A.data ++ (thinkOpen ++ B.data ++ thinkClose ++ C.data))⟩ : String) = _
  rw [stripThinkGo_copy A.data (thinkOpen ++ B.data ++ thinkClose ++ C.data) _ hA le_rfl]
  rw [stripThinkGo_block B.data C.data _ hB le_rfl]
  show (⟨A.data ++ stripThinkList C.data⟩ : String) = A ++ stripThink C
  have : (A ++ stripThink C).data = A.data ++ stripThinkList C.data := by
    rw [data_append]
    rfl
  rw [← this]

theorem valuesNonempty_process (s : Sessions) (rt q u conv : String)
    (fid : Option String) (o : ChatOutcome) (hs : valuesNonempty s = true) :
    valuesNonempty (process_and_reply s rt q u conv fid o).sessions = true := by
  cases o with
  | httpFailure => exact hs
  | ok body =>
    simp only [process_and_reply, call_dify_api]
    by_cases h : (body.conversation_id.getD "" != "") = true
    · simp only [h, if_true]
      exact valuesNonempty_sset s u _ hs h
    · simp only [h, if_false, Bool.false_eq_true]
      exact hs

theorem valuesNonempty_handle_file (s : Sessions) (u rt m k : String)
    (d : DownloadOutcome) (up : UploadOutcome) (o : ChatOutcome)
    (hs : valuesNonempty s = true) :
    valuesNonempty (handle_file_message s u rt m k d up o).sessions = true := by
  cases d with
  | failure => exact hs
  | ok content =>
    cases up with
    | httpFailure => exact hs
    | ok id =>
      cases id with
      | none => exact hs
      | some fid =>
        simp only [handle_file_message, upload_file_to_dify]
        by_cases h : (fid != "") = true
        · simp only [h, if_true]
          exact valuesNonempty_process s rt ("[" ++ k ++ " uploaded]") u
            (sget s u) (some fid) o hs
        · simp only [h, if_false, Bool.false_eq_true]
          exact hs

theorem valuesNonempty_dispatch (s : Sessions) (e : Event)
    (hs : valuesNonempty s = true) :
    valuesNonempty (dispatchEvent s e).sessions = true := by
  cases e with
  | text e =>
    exact valuesNonempty_process s e.reply_token e.text e.user_id
      (sget s e.user_id) none e.chat hs
  | media e =>
    exact valuesNonempty_handle_file s e.user_id e.reply_token e.message_id
      e.message_type e.download e.upload e.chat hs

theorem valuesNonempty_run (events : List Event) : ∀ (s : Sessions),
    valuesNonempty s = true →
    valuesNonempty (runEvents s events).sessions = true := by
  induction events with
  | nil => intro s hs; exact hs
  | cons e rest ih =>
    intro s hs
    exact ih _ (valuesNonempty_dispatch s e hs)

theorem buildDifyPayload_conversation_id (q u conv : String)
    (fid : Option String) :
    (buildDifyPayload q u conv fid).conversation_id = optConversationId conv := by
  cases fid with
  | none =>
    simp only [buildDifyPayload, optConversationId]
    split <;> rfl
  | some f =>
    simp only [buildDifyPayload, optConversationId]
    by_cases hf : (f != "") = true <;> by_cases hc : (conv != "") = true <;>
      simp [hf, hc]

theorem forwardedPayloads_append (t1 t2 : List Action) :
    forwardedPayloads (t1 ++ t2) = forwardedPayloads t1 ++ forwardedPayloads t2 := by
  induction t1 with
  | nil => rfl
  | cons a rest ih => cases a <;> simp [forwardedPayloads, ih]

theorem forwardedPayloads_process (s : Sessions) (rt q u conv : String)
    (fid : Option String) (o : ChatOutcome) :
    forwardedPayloads (process_and_reply s rt q u conv fid o).trace
      = [buildDifyPayload q u conv fid] := by
  cases o with
  | httpFailure => rfl
  | ok body =>
    simp only [process_and_reply, call_dify_api]
    by_cases h : (body.conversation_id.getD "" != "") = true <;>
      simp [h, forwardedPayloads]

theorem uploadedFilenames_process (s : Sessions) (rt q u conv : String)
    (fid : Option String) (o : ChatOutcome) :
    uploadedFilenames (process_and_reply s rt q u conv fid o).trace = [] := by
  cases o with
  | httpFailure => rfl
  | ok body =>
    simp only [process_and_reply, call_dify_api]
    by_cases h : (body.conversation_id.getD "" != "") = true <;>
      simp [h, uploadedFilenames]

theorem process_sessions (s : Sessions) (rt q u conv : String)
    (fid : Option String) (o : ChatOutcome) :
    (process_and_reply s rt q u conv fid o).sessions
      = (if newConvOf o != "" then sset s u (newConvOf o) else s) := by
  cases o with
  | httpFailure => simp [newConvOf, process_and_reply, call_dify_api]
  | ok body =>
    simp only [process_and_reply, call_dify_api, newConvOf]
    by_cases h : (body.conversation_id.getD "" != "") = true <;> simp [h]

/-- C1, counterexample to the claim as stated.  The claim says the
continuation token attached to query n+1 equals the `conversation_id`
returned in response n, and is absent when response n returned none
(empty).  Running three text events of sender "u" from an empty session
map, where response 1 returns conversation id "c1" and response 2 returns
the empty conversation id, the third forwarded payload still carries
`conversation_id = some "c1"` — not absent as the claim requires after an
empty response, because `process_and_reply` only overwrites the stored
token when the new one is non-empty. -/
theorem c1_counterexample :
    (forwardedPayloads (runEvents []
        [.text ⟨"u", "q1", "rt1", .ok ⟨some "a1", some "c1"⟩⟩,
         .text ⟨"u", "q2", "rt2", .ok ⟨some "a2", some ""⟩⟩,
         .text ⟨"u", "q3", "rt3", .ok ⟨some "a3", some "c3"⟩⟩]).trace).map
      ChatPayload.conversation_id = [none, some "c1", some "c1"]
    ∧ ((some "c1" : Option String) == (none : Option String)) = false := by
  decide

/-- C1 (amended): for consecutive events from the same sender processed
through `process_and_reply`, the continuation token attached to query n+1
equals the `conversation_id` returned by the backend in response n when
that id is non-empty; when response n returned none/empty (or the call
failed), the token attached to query n+1 is unchanged from the one
attached to query n (absent only if no non-empty token was ever stored for
that sender). -/
theorem c1_session_continuity (s : Sessions) (u q₁ q₂ rt₁ rt₂ : String)
    (o₁ o₂ : ChatOutcome) :
    (forwardedPayloads (runEvents s
        [.text ⟨u, q₁, rt₁, o₁⟩, .text ⟨u, q₂, rt₂, o₂⟩]).trace).map
      ChatPayload.conversation_id
      = [optConversationId (sget s u),
         if newConvOf o₁ != "" then some (newConvOf o₁)
         else optConversationId (sget s u)] := by
  simp only [runEvents, dispatchEvent, handle_text_message, List.append_nil]
  rw [forwardedPayloads_append, forwardedPayloads_process,
    forwardedPayloads_process, process_sessions]
  simp only [List.cons_append, List.nil_append, List.map_cons, List.map_nil]
  rw [buildDifyPayload_conversation_id, buildDifyPayload_conversation_id]
  by_cases h : (newConvOf o₁ != "") = true
  · simp only [h, if_true]
    rw [sget_sset_self]
    simp [optConversationId, h]
  · simp [h]

/-- C2: `process_and_reply` wraps forwarder, store update and reply
emitter.  On forwarder failure the exception is caught and the reply
emitter is invoked with the fixed apology, with the session map untouched.
On success the store is updated with the new continuation token exactly
when that token is non-empty, and the update action sits strictly after
the forward and before the reply emission in the trace. -/
theorem c2_orchestration (s : Sessions) (rt q u conv : String)
    (fid : Option String) (body : DifyChatBody) :
    process_and_reply s rt q u conv fid .httpFailure
      = ⟨s, [.forward (buildDifyPayload q u conv fid),
             .emitReply rt genericApology]⟩
    ∧ process_and_reply s rt q u conv fid (.ok body)
      = (if body.conversation_id.getD "" != "" then
          ⟨sset s u (body.conversation_id.getD ""),
           [.forward (buildDifyPayload q u conv fid),
            .storeUpdate u (body.conversation_id.getD ""),
            .emitReply rt (pyStrip (stripThink (body.answer.getD genericApology)))]⟩
         else
          ⟨s, [.forward (buildDifyPayload q u conv fid),
               .emitReply rt (pyStrip (stripThink (body.answer.getD genericApology)))]⟩) :=
  ⟨rfl, rfl⟩

/-- C3, counterexample to the claim as stated.  The claim says an answer
containing no `<think>` tag is returned unchanged, but `call_dify_api`
unconditionally trims surrounding whitespace: the tag-free answer
`" hello "` comes back as `"hello"`.  Also, the claimed shape
`"A<think>B</think>C" ↦ "AC"` fails when A itself contains `<think>`: for
`A = "x<think>y"`, `B = "z"`, `C = "w"` the input `"x<think>y<think>z</think>w"`
is returned as `"xw"` (the regex match starts at the first `<think>`),
not `"x<think>yw"`. -/
theorem c3_counterexample :
    call_dify_api "q" "u" "" none (.ok ⟨some " hello ", none⟩)
      = some ("hello", "")
    ∧ (" hello " == "hello") = false
    ∧ call_dify_api "q" "u" "" none
        (.ok ⟨some "x<think>y<think>z</think>w", none⟩) = some ("xw", "")
    ∧ ("xw" == "x<think>yw") = false := by
  decide

/-- C3 (amended): `call_dify_api` removes the `<think>...</think>`
delimited substrings of the answer exactly as the non-greedy left-to-right
regex does, including their contents and across newlines, and then trims
surrounding whitespace before returning.  In particular, for an answer
`A<think>B</think>C` where `A` and `B` contain no `'<'` character, the
returned answer is `A` followed by the stripped `C`, whitespace-trimmed;
the literal answer `"A<think>B</think>C"` is returned as `"AC"`; and an
answer containing no `<think>` substring is returned with only its
surrounding whitespace trimmed, otherwise unchanged. -/
theorem c3_think_stripping (q u A B C ans : String) :
    ('<' ∉ A.data → '<' ∉ B.data →
      call_dify_api q u "" none
          (.ok ⟨some (A ++ "<think>" ++ B ++ "</think>" ++ C), none⟩)
        = some (pyStrip (A ++ stripThink C), ""))
    ∧ (containsTag ans.data = false →
      call_dify_api q u "" none (.ok ⟨some ans, none⟩) = some (pyStrip ans, ""))
    ∧ call_dify_api q u "" none (.ok ⟨some "A<think>B</think>C", none⟩)
        = some ("AC", "") := by
  refine ⟨?_, ?_, ?_⟩
  · intro hA hB
    simp only [call_dify_api, Option.getD_some, Option.getD_none]
    rw [stripThink_block A B C hA hB]
  · intro h
    simp only [call_dify_api, Option.getD_some, Option.getD_none]
    rw [stripThink_noTag ans h]
  · rfl

/-- Witness for C3 (amended): a concrete multi-line instance of the
general conjuncts. -/
theorem c3_think_stripping_witness :
    call_dify_api "q" "u" "" none
        (.ok ⟨some ("x " ++ "<think>" ++ "y\nz" ++ "</think>" ++ " w"), none⟩)
      = some (pyStrip ("x " ++ stripThink " w"), "")
    ∧ call_dify_api "q" "u" "" none (.ok ⟨some "plain", none⟩)
      = some (pyStrip "plain", "") :=
  ⟨(c3_think_stripping "q" "u" "x " "y\nz" " w" "plain").1 (by decide) (by decide),
   (c3_think_stripping "q" "u" "x " "y\nz" " w" "plain").2.1 (by decide)⟩

/-- C4: when the backend chat call fails, the reply emitted equals the
fixed apology string and the session map is left exactly as it was — for
text events (through `process_and_reply` directly) and for media events
(where the chat call happens after a successful upload). -/
theorem c4_backend_failure (s : Sessions) (rt q u conv m k : String)
    (fid : Option String) (content : List Nat) (fid2 : String) :
    (process_and_reply s rt q u conv fid .httpFailure).sessions = s
    ∧ (process_and_reply s rt q u conv fid .httpFailure).trace
        = [.forward (buildDifyPayload q u conv fid), .emitReply rt genericApology]
    ∧ ((fid2 != "") = true →
        handle_file_message s u rt m k (.ok content) (.ok (some fid2)) .httpFailure
          = ⟨s, [.downloadContent m,
                 .uploadFile (m ++ "." ++ extensionFor k) content u,
                 .forward (buildDifyPayload ("[" ++ k ++ " uploaded]") u
                   (sget s u) (some fid2)),
                 .emitReply rt genericApology]⟩) := by
  refine ⟨rfl, rfl, ?_⟩
  intro h
  simp only [handle_file_message, upload_file_to_dify, h, if_true]
  rfl

/-- Witness for C4: concrete media event with a truthy upload id and a
failing chat call. -/
theorem c4_backend_failure_witness :
    handle_file_message [] "u" "rt" "m" "image" (.ok []) (.ok (some "fid"))
        .httpFailure
      = ⟨[], [.downloadContent "m",
              .uploadFile ("m" ++ "." ++ extensionFor "image") [] "u",
              .forward (buildDifyPayload ("[" ++ "image" ++ " uploaded]") "u"
                (sget [] "u") (some "fid")),
              .emitReply "rt" genericApology]⟩ :=
  (c4_backend_failure [] "rt" "q" "u" "" "m" "image" none [] "fid").2.2 (by decide)

/-- C5: when the upload of a media event fails (HTTP failure or non-2xx,
both of which make `upload_file_to_dify` return `None`), no chat-messages
forward happens and the emitted reply is the file-specific apology, which
differs from the generic one. -/
theorem c5_upload_failure (s : Sessions) (u rt m k : String)
    (content : List Nat) (o : ChatOutcome) :
    handle_file_message s u rt m k (.ok content) .httpFailure o
      = ⟨s, [.downloadContent m,
             .uploadFile (m ++ "." ++ extensionFor k) content u,
             .emitReply rt uploadApology]⟩
    ∧ forwardedPayloads
        (handle_file_message s u rt m k (.ok content) .httpFailure o).trace = []
    ∧ (uploadApology == genericApology) = false :=
  ⟨rfl, rfl, by decide⟩

/-- C6: the chat-messages JSON body contains `inputs = {}`, the given
query, `response_mode = "blocking"`, `user = senderId` and `files = []`
by default; the `conversation_id` key is present exactly when the
continuation token is non-empty; and a (truthy) file reference makes
`files` the single-element list with `type` hardcoded to `"image"` and
`transfer_method = "local_file"`, regardless of the media kind. -/
theorem c6_payload_shape (q u conv : String) (fid : Option String) :
    (buildDifyPayload q u conv fid).inputs = []
    ∧ (buildDifyPayload q u conv fid).query = q
    ∧ (buildDifyPayload q u conv fid).response_mode = "blocking"
    ∧ (buildDifyPayload q u conv fid).user = u
    ∧ (buildDifyPayload q u conv fid).conversation_id
        = (if conv != "" then some conv else none)
    ∧ (buildDifyPayload q u conv fid).files
        = (match fid with
           | some f =>
             if f != "" then
               [{ type := "image", transfer_method := "local_file",
                  upload_file_id := f }]
             else []
           | none => []) := by
  refine ⟨?_, ?_, ?_, ?_, ?_, ?_⟩ <;>
    · cases fid with
      | none =>
        simp only [buildDifyPayload]
        split <;> rfl
      | some f =>
        simp only [buildDifyPayload]
        by_cases hf : (f != "") = true <;> by_cases hc : (conv != "") = true <;>
          simp [hf, hc]

/-- C7: a `POST /callback` whose signature does not verify is answered
with HTTP 400 and triggers no event processing at all (no outbound
download, upload, forward or reply call, and no session change); a
validly signed request is answered 200 with body `OK`. -/
theorem c7_callback (s : Sessions) (events : List Event) :
    callback s .invalid = ⟨400, "Invalid signature", s, []⟩
    ∧ (callback s (.valid events)).status = 200
    ∧ (callback s (.valid events)).body = "OK" :=
  ⟨rfl, rfl, rfl⟩

/-- C8: the filename used for the upload of a media event is
`<messageId>.<ext>` where the extension comes from the static table
image→jpg, video→mp4, audio→m4a, and any other kind falls back to bin. -/
theorem c8_upload_filename (s : Sessions) (u rt m k : String)
    (content : List Nat) (up : UploadOutcome) (o : ChatOutcome) :
    uploadedFilenames
        (handle_file_message s u rt m k (.ok content) up o).trace
      = [m ++ "." ++ extensionFor k]
    ∧ extensionFor "image" = "jpg"
    ∧ extensionFor "video" = "mp4"
    ∧ extensionFor "audio" = "m4a"
    ∧ (k ≠ "image" → k ≠ "video" → k ≠ "audio" → extensionFor k = "bin") := by
  refine ⟨?_, by decide, by decide, by decide, ?_⟩
  · cases up with
    | httpFailure => rfl
    | ok id =>
      cases id with
      | none => rfl
      | some fid =>
        simp only [handle_file_message, upload_file_to_dify]
        by_cases h : (fid != "") = true
        · simp only [h, if_true]
          simp only [uploadedFilenames]
          rw [uploadedFilenames_process]
        · simp only [h, if_false, Bool.false_eq_true]
          rfl
  · intro h1 h2 h3
    have e1 : ¬ (("image" == k) = true) := fun hh => h1 (beq_iff_eq.mp hh).symm
    have e2 : ¬ (("video" == k) = true) := fun hh => h2 (beq_iff_eq.mp hh).symm
    have e3 : ¬ (("audio" == k) = true) := fun hh => h3 (beq_iff_eq.mp hh).symm
    simp only [extensionFor, extension_map, dictGetD, e1, e2, e3, if_false,
      Bool.false_eq_true]

/-- Witness for C8: a media event of the unregistered kind "file" gets
extension bin. -/
theorem c8_upload_filename_witness : extensionFor "file" = "bin" :=
  (c8_upload_filename [] "u" "rt" "m" "file" [] .httpFailure
    .httpFailure).2.2.2.2 (by decide) (by decide) (by decide)

/-- C9: every value ever stored in the session map is a non-empty string
(over any sequence of events processed from the initial empty map), and a
backend response whose `conversation_id` is absent or empty leaves the
session map exactly unchanged — it neither creates nor overwrites an
entry. -/
theorem c9_store_invariant (events : List Event) (s : Sessions)
    (rt q u conv : String) (fid : Option String) (ans : Option String) :
    valuesNonempty (runEvents [] events).sessions = true
    ∧ (process_and_reply s rt q u conv fid (.ok ⟨ans, none⟩)).sessions = s
    ∧ (process_and_reply s rt q u conv fid (.ok ⟨ans, some ""⟩)).sessions = s :=
  ⟨valuesNonempty_run events [] rfl, rfl, rfl⟩

/-- C10: an upload whose HTTP call succeeds but whose JSON response lacks
the `id` field (or carries an empty one) makes `upload_file_to_dify`
return a falsy result, and the event is handled exactly like an upload
failure: the file-specific apology is emitted and no chat-messages
forward occurs. -/
theorem c10_upload_missing_id (s : Sessions) (u rt m k : String)
    (content : List Nat) (o : ChatOutcome) :
    upload_file_to_dify (.ok none) = none
    ∧ handle_file_message s u rt m k (.ok content) (.ok none) o
        = ⟨s, [.downloadContent m,
               .uploadFile (m ++ "." ++ extensionFor k) content u,
               .emitReply rt uploadApology]⟩
    ∧ handle_file_message s u rt m k (.ok content) (.ok (some "")) o
        = ⟨s, [.downloadContent m,
               .uploadFile (m ++ "." ++ extensionFor k) content u,
               .emitReply rt uploadApology]⟩
    ∧ forwardedPayloads
        (handle_file_message s u rt m k (.ok content) (.ok none) o).trace = [] :=
  ⟨rfl, rfl, rfl, rfl⟩

end LineConnect
